import Mathlib

/-!
Shallow embedding of the client-side state management and backend routes of
the recruiting application: the jobs/candidates data store
(`useDataStore.ts`), the Google-connection hook (`useGoogleAuth.ts`), the
scheduling modal (`ScheduleModal.tsx` and its caller `ResultsPage.tsx`), the
calendar listing route (`server.ts`), and the N8N webhook service
(`webhookService.ts`).

Asynchronous I/O is modelled by passing the outcome of each network call as
an explicit parameter (an inductive describing the response, or a thrown
error); the store mutators become pure functions from the old state and the
outcome to the new state.  JavaScript `undefined`/`null` fields are `Option`;
JavaScript string truthiness (`!!s`) is the test `s ≠ ""`.
-/

namespace RecrutApp

/-- The four pipeline statuses accepted by `updateCandidateStatusInStore`
(`'Triagem' | 'Entrevista' | 'Aprovado' | 'Reprovado'`). -/
inductive PipelineStatus
  | Triagem
  | Entrevista
  | Aprovado
  | Reprovado
  deriving DecidableEq, Repr

/-- The string value of a pipeline status, as it appears in the store. -/
def PipelineStatus.value : PipelineStatus → String
  | .Triagem => "Triagem"
  | .Entrevista => "Entrevista"
  | .Aprovado => "Aprovado"
  | .Reprovado => "Reprovado"

/-- A Baserow single-select field value `{ id, value }`, as stored in a
candidate's `status` field. -/
structure StatusField where
  id : Int
  value : String
  deriving DecidableEq, Repr

/-- A link-row reference `{ id, ... }` (used by `candidate.vaga` and
`job.usuario`). -/
structure RowRef where
  id : Int
  deriving DecidableEq, Repr

/-- A candidate row as held in the data store (`shared/types`).  Fields not
named in the code paths under analysis are represented by the ones the
source reads (`id`, `nome`, `email`, `telefone`, `score`, `vaga`,
`status`). -/
structure Candidate where
  id : Int
  nome : String
  email : Option String
  telefone : Option String
  score : Option Int
  vaga : Option (List RowRef)
  status : Option StatusField
  deriving DecidableEq, Repr

/-- A job posting row (`features/screening/types`): `id`, `titulo`, and the
`usuario` link-row list read by the webhook service. -/
structure JobPosting where
  id : Int
  titulo : String
  usuario : Option (List RowRef)
  deriving DecidableEq, Repr

/-- The state of the zustand data store (`useDataStore.ts`): `jobs`,
`candidates`, `isDataLoading`, `error`. -/
structure DataState where
  jobs : List JobPosting
  candidates : List Candidate
  isDataLoading : Bool
  error : Option String
  deriving DecidableEq, Repr

/-- `updateCandidateStatusInStore(candidateId, newStatus)`: a synchronous
`set` that maps over `state.candidates`, replacing the matching candidate's
`status` by `{ id: 0, value: newStatus }` (a zustand partial `set`, so every
other field of the store is merged through unchanged). -/
def updateCandidateStatusInStore (candidateId : Int) (newStatus : PipelineStatus)
    (s : DataState) : DataState :=
  { s with
    candidates := s.candidates.map fun c =>
      if c.id = candidateId then { c with status := some ⟨0, newStatus.value⟩ } else c }

/-- Substring test mirroring JavaScript `String.prototype.includes`. -/
def strIncludes (s sub : String) : Bool :=
  decide (sub.toList <:+: s.toList)

/-- The JSON body obtained from `response.json()` in `fetchAllData`: either
parsing throws (`malformed`, with the thrown error's message), or it yields
an object whose `jobs` and `candidates` keys may each be absent/null. -/
inductive JsonBody
  | malformed (msg : String)
  | parsed (jobs : Option (List JobPosting)) (candidates : Option (List Candidate))
  deriving DecidableEq, Repr

/-- The outcome of the `fetch` in `fetchAllData`: the promise rejects
(`networkError`, with the thrown error's message), or a response arrives
with an `ok` flag, a `content-type` header (absent = `null`), and a body. -/
inductive FetchOutcome
  | networkError (msg : String)
  | response (ok : Bool) (contentType : Option String) (body : JsonBody)
  deriving DecidableEq, Repr

/-- The content-type guard of `fetchAllData`:
`contentType && contentType.includes("application/json")`. -/
def contentTypeIsJson (contentType : Option String) : Bool :=
  match contentType with
  | none => false
  | some ct => strIncludes ct "application/json"

/-- `err.message || fallback`: JavaScript falls back when the message is the
empty string. -/
def orDefault (msg fallback : String) : String :=
  if msg = "" then fallback else msg

/-- The `catch` branch of `fetchAllData`: records the error and clears both
collections. -/
def fetchAllDataCatch (s : DataState) (msg : String) : DataState :=
  { s with error := some (orDefault msg "Falha ao carregar dados."),
           jobs := [], candidates := [] }

/-- `fetchAllData(profile)` as a function of the fetch outcome: sets
`isDataLoading`/clears `error`, rejects non-JSON content types, rejects
non-`ok` responses, replaces `jobs`/`candidates` on success
(`jobs || []`), and on any thrown error clears both collections and records
the message; `finally` clears the loading flag. -/
def fetchAllData (outcome : FetchOutcome) (s : DataState) : DataState :=
  let s₁ : DataState := { s with isDataLoading := true, error := none }
  let s₂ : DataState :=
    match outcome with
    | .networkError msg => fetchAllDataCatch s₁ msg
    | .response ok contentType body =>
      if !contentTypeIsJson contentType then
        fetchAllDataCatch s₁
          "O servidor retornou uma resposta inesperada. Verifique os logs do backend."
      else if !ok then
        fetchAllDataCatch s₁ "Falha ao carregar dados do servidor."
      else
        match body with
        | .malformed msg => fetchAllDataCatch s₁ msg
        | .parsed jobs candidates =>
          { s₁ with jobs := jobs.getD [], candidates := candidates.getD [] }
  { s₂ with isDataLoading := false }

/-- Whether `fetchAllData` takes its `catch` path for a given outcome: the
fetch rejected, the `content-type` header is missing or not
`application/json` (regardless of HTTP status), the response is not `ok`,
or the body fails to parse. -/
def fetchFailed (outcome : FetchOutcome) : Bool :=
  match outcome with
  | .networkError _ => true
  | .response ok contentType body =>
    !contentTypeIsJson contentType
    || !ok
    || (match body with | .malformed _ => true | .parsed _ _ => false)

/-- The outcome of the `fetch` in `deleteJobById`: the promise (or the body
parse on the error path) rejects, or a response arrives; when the response
is not `ok` the route's JSON body may carry an `error` message. -/
inductive DeleteOutcome
  | networkError (msg : String)
  | response (ok : Bool) (errorField : Option String)
  deriving DecidableEq, Repr

/-- `deleteJobById(jobId)`: removes the job from the local list only when
the response is `ok`; otherwise it rethrows (`errorData.error || default`)
and leaves the state untouched.  Returns the resulting state paired with
the thrown error message, if any. -/
def deleteJobById (jobId : Int) (outcome : DeleteOutcome) (s : DataState) :
    DataState × Option String :=
  match outcome with
  | .networkError msg => (s, some msg)
  | .response ok errorField =>
    if ok then
      ({ s with jobs := s.jobs.filter fun job => job.id != jobId }, none)
    else
      (s, some (orDefault (errorField.getD "") "Não foi possível excluir a vaga."))

/-- A user profile (`features/auth/types`): identity plus the optional
Google refresh credential (`null`/absent modelled as `none`). -/
structure UserProfile where
  id : Int
  email : String
  google_refresh_token : Option String
  deriving DecidableEq, Repr

/-- JavaScript truthiness of an optional string: `!!s` is false exactly for
`null`/`undefined` and the empty string. -/
def jsTruthy : Option String → Bool
  | none => false
  | some s => s != ""

/-- `hasGoogleToken(profile)` (`useGoogleAuth.ts`):
`!!profile && !!profile.google_refresh_token`. -/
def hasGoogleToken (profile : Option UserProfile) : Bool :=
  match profile with
  | none => false
  | some p => jsTruthy p.google_refresh_token

/-- The hook's `isGoogleConnected` state: initialised to
`hasGoogleToken(profile)` and re-synchronised to it by the effect that runs
on every profile change, so it is the derived value of the current
profile. -/
def isGoogleConnected (profile : Option UserProfile) : Bool :=
  hasGoogleToken profile

/-- A calendar entry as consumed by the scheduling modal:
`{ id, summary, primary }`. -/
structure GoogleCalendar where
  id : String
  summary : String
  primary : Bool
  deriving DecidableEq, Repr

/-- The calendar-related state of `ScheduleModal`. -/
structure ModalCalendarState where
  calendars : List GoogleCalendar
  selectedCalendarId : String
  isLoadingCalendars : Bool
  calendarError : String
  deriving DecidableEq, Repr

/-- Outcome of the list-calendars fetch as seen by the modal: either the
fetch or `response.json()` throws, or a parsed body arrives together with
the response's `ok` flag, carrying `success`, an optional `message` and a
`calendars` array. -/
inductive CalendarsFetchOutcome
  | thrown (msg : String)
  | body (ok : Bool) (success : Bool) (message : Option String)
      (calendars : List GoogleCalendar)
  deriving DecidableEq, Repr

/-- The modal-open effect plus `fetchCalendars` (`ScheduleModal.tsx`): reset
loading/error, then on a successful body store the calendars and select the
primary one, else the first one, else record the no-writable-calendar
error; any thrown or non-`ok`/non-`success` outcome records the error
message; `finally` clears the loading flag. -/
def fetchCalendars (outcome : CalendarsFetchOutcome)
    (st : ModalCalendarState) : ModalCalendarState :=
  let s₁ : ModalCalendarState := { st with isLoadingCalendars := true, calendarError := "" }
  let s₂ : ModalCalendarState :=
    match outcome with
    | .thrown msg => { s₁ with calendarError := msg }
    | .body ok success message calendars =>
      if !ok || !success then
        { s₁ with calendarError :=
            orDefault (message.getD "") "Falha ao buscar calendários do Google." }
      else
        let s' : ModalCalendarState := { s₁ with calendars := calendars }
        match calendars.find? (fun cal => cal.primary) with
        | some primaryCalendar => { s' with selectedCalendarId := primaryCalendar.id }
        | none =>
          match calendars with
          | first :: _ => { s' with selectedCalendarId := first.id }
          | [] =>
            { s' with calendarError :=
                "Nenhum calendário com permissão de escrita foi encontrado na sua conta Google." }
  { s₂ with isLoadingCalendars := false }

/-- The submit control's `disabled` expression:
`isSubmitting || isLoadingCalendars || !!calendarError`. -/
def submitDisabled (isSubmitting : Bool) (st : ModalCalendarState) : Bool :=
  isSubmitting || st.isLoadingCalendars || st.calendarError != ""

/-- The form fields of `ScheduleModal` read by `handleSubmit`. -/
structure ScheduleFormState where
  startDateTime : String
  endDateTime : String
  details : String
  selectedCalendarId : String
  deriving DecidableEq, Repr

/-- The event details passed to `onSchedule`. -/
structure EventDetails where
  start : String
  end_ : String
  title : String
  details : String
  calendarId : String
  deriving DecidableEq, Repr

/-- `handleSubmit` of `ScheduleModal`: when `startDateTime`, `endDateTime`
or `selectedCalendarId` is empty it alerts and returns without calling
`onSchedule` (result `none`, no network call); otherwise it invokes
`onSchedule` with the assembled details (result `some`). -/
def handleSubmit (form : ScheduleFormState) (title : String) : Option EventDetails :=
  if form.startDateTime == "" || form.endDateTime == "" || form.selectedCalendarId == "" then
    none
  else
    some ⟨form.startDateTime, form.endDateTime, title, form.details, form.selectedCalendarId⟩

/-- Outcome of the create-event request as seen by `handleScheduleSubmit`:
either the fetch or `response.json()` throws, or a parsed body arrives with
the response's `ok` flag, `success`, and an optional `message`. -/
inductive SubmitOutcome
  | thrown (msg : String)
  | body (ok : Bool) (success : Bool) (message : Option String)
  deriving DecidableEq, Repr

/-- Whether a create-event outcome is a failure (`!response.ok ||
!data.success`, or a thrown error). -/
def submitFailed (outcome : SubmitOutcome) : Bool :=
  match outcome with
  | .thrown _ => true
  | .body ok success _ => !ok || !success

/-- The part of `ResultsPage`'s state touched by `handleScheduleSubmit`. -/
structure ResultsPageState where
  isProcessing : Bool
  isScheduleModalOpen : Bool
  candidateToSchedule : Option Candidate
  deriving DecidableEq, Repr

/-- The result of running `handleScheduleSubmit`: the resulting component
state, the alerts shown, and whether `onDataSynced` was invoked. -/
structure ScheduleSubmitResult where
  state : ResultsPageState
  alerts : List String
  dataSynced : Bool
  deriving DecidableEq, Repr

/-- `handleScheduleSubmit` of `ResultsPage`: guards on
`candidateToSchedule`/`selectedJob`/`profile`; on a successful body it
alerts success and calls `onDataSynced`; on any failure it alerts
`Erro: <message>`; the `finally` block then unconditionally clears
`isProcessing`, closes the modal (`setIsScheduleModalOpen(false)`) and
clears `candidateToSchedule`. -/
def handleScheduleSubmit (candidateToSchedule : Option Candidate)
    (selectedJob : Option JobPosting) (profile : Option UserProfile)
    (outcome : SubmitOutcome) (st : ResultsPageState) : ScheduleSubmitResult :=
  match candidateToSchedule, selectedJob, profile with
  | some _, some _, some _ =>
    let alertsSynced : List String × Bool :=
      match outcome with
      | .thrown msg => (["Erro: " ++ msg], false)
      | .body ok success message =>
        if !ok || !success then
          (["Erro: " ++ orDefault (message.getD "") "Não foi possível agendar a entrevista."],
           false)
        else
          (["Entrevista agendada com sucesso!"], true)
    { state := { isProcessing := false, isScheduleModalOpen := false,
                 candidateToSchedule := none },
      alerts := alertsSynced.1, dataSynced := alertsSynced.2 }
  | _, _, _ => { state := st, alerts := [], dataSynced := false }

/-- A calendar entry as returned by the Google calendar-list API
(`server.ts`): every field may be absent. -/
structure RawCalendarEntry where
  id : Option String
  summary : Option String
  primary : Option Bool
  accessRole : Option String
  deriving DecidableEq, Repr

/-- The simplified calendar object built by the list-calendars route:
`{ id, summary, primary: cal.primary || false, accessRole }`. -/
structure SimplifiedCalendar where
  id : Option String
  summary : Option String
  primary : Bool
  accessRole : Option String
  deriving DecidableEq, Repr

/-- The map-then-filter of the list-calendars route: project each entry to
`{id, summary, primary, accessRole}` and keep only `owner`/`writer`
access roles. -/
def simplifyCalendars (items : List RawCalendarEntry) : List SimplifiedCalendar :=
  (items.map fun cal =>
    ({ id := cal.id, summary := cal.summary, primary := cal.primary.getD false,
       accessRole := cal.accessRole } : SimplifiedCalendar)).filter
    fun cal => cal.accessRole == some "owner" || cal.accessRole == some "writer"

/-- The HTTP result of `GET /api/google/calendar/list-calendars`. -/
inductive ListCalendarsResult
  | badRequest (message : String)
  | serverError (message : String)
  | okJson (calendars : List SimplifiedCalendar)
  deriving DecidableEq, Repr

/-- The list-calendars route handler: rejects a missing `userId`, maps a
calendar-client failure to a 500, answers `calendars: []` when the API
yields no items, and otherwise the simplified, writer/owner-filtered
list. -/
def listCalendarsRoute (userId : Option String)
    (api : Except String (Option (List RawCalendarEntry))) : ListCalendarsResult :=
  if !(jsTruthy userId) then
    .badRequest "O ID do usuário (userId) é obrigatório."
  else
    match api with
    | .error msg => .serverError msg
    | .ok none => .okJson []
    | .ok (some items) => .okJson (simplifyCalendars items)

/-- A recruiter row from the users table (`webhookService.ts`). -/
structure BaserowUser where
  id : Int
  nome : String
  email : Option String
  deriving DecidableEq, Repr

/-- A candidate row as passed to the webhook service. -/
structure BaserowCandidate where
  id : Int
  nome : String
  deriving DecidableEq, Repr

/-- The `{ success, message }` result of `triggerN8NWebhook`. -/
structure WebhookResult where
  success : Bool
  message : String
  deriving DecidableEq, Repr

/-- The `{ candidate, job, recruiter }` payload posted to N8N. -/
structure WebhookPayload where
  candidate : BaserowCandidate
  job : JobPosting
  recruiter : BaserowUser
  deriving DecidableEq, Repr

/-- Outcome of the POST to the N8N webhook URL. -/
inductive WebhookFetchOutcome
  | networkError (msg : String)
  | response (ok : Bool) (status : Nat) (bodyText : String)
  deriving DecidableEq, Repr

/-- `getRecruiterData(userId)`: a Baserow row fetch whose `catch` turns any
failure into `null`; the lookup oracle already carries that `Option`. -/
def getRecruiterData (lookup : Int → Option BaserowUser) (userId : Int) :
    Option BaserowUser :=
  lookup userId

/-- `triggerN8NWebhook(candidate, job)` as a total function of the
environment URL, the recruiter lookup and the fetch outcome.  It always
returns a `{ success, message }` value and never throws; the second
component is the payload actually posted (`none` = no request sent). -/
def triggerN8NWebhook (envUrl : Option String) (lookup : Int → Option BaserowUser)
    (fetchOutcome : WebhookFetchOutcome)
    (candidate : BaserowCandidate) (job : JobPosting) :
    WebhookResult × Option WebhookPayload :=
  if !(jsTruthy envUrl) then
    ({ success := false, message := "URL do webhook não configurada." }, none)
  else
    match job.usuario with
    | none => ({ success := false, message := "Vaga sem recrutador associado." }, none)
    | some [] => ({ success := false, message := "Vaga sem recrutador associado." }, none)
    | some (first :: _) =>
      match getRecruiterData lookup first.id with
      | none =>
        ({ success := false,
           message := "Recrutador com ID " ++ toString first.id ++ " não encontrado." }, none)
      | some recruiter =>
        let payload : WebhookPayload := ⟨candidate, job, recruiter⟩
        match fetchOutcome with
        | .networkError msg =>
          ({ success := false, message := msg }, some payload)
        | .response ok status bodyText =>
          if !ok then
            ({ success := false,
               message := "N8N respondeu com status " ++ toString status ++ ": " ++ bodyText },
             some payload)
          else
            ({ success := true, message := "Webhook enviado." }, some payload)

end RecrutApp

namespace RecrutApp

/-- C1. For every store state, candidate id present in the store, and status,
`updateCandidateStatusInStore` synchronously yields a state in which every
candidate carrying that id has status value equal to the new status (the
mutator is a pure local map, independent of any backend response). -/
theorem updateCandidateStatusInStore_sets_status
    (s : DataState) (candidateId : Int) (newStatus : PipelineStatus)
    (hpresent : ∃ c ∈ s.candidates, c.id = candidateId) :
    (∃ c ∈ (updateCandidateStatusInStore candidateId newStatus s).candidates,
        c.id = candidateId) ∧
    ∀ c ∈ (updateCandidateStatusInStore candidateId newStatus s).candidates,
      c.id = candidateId → c.status = some ⟨0, newStatus.value⟩ := by
  obtain ⟨c₀, hc₀, hid₀⟩ := hpresent
  constructor
  · refine ⟨{ c₀ with status := some ⟨0, newStatus.value⟩ }, ?_, hid₀⟩
    simp only [updateCandidateStatusInStore, List.mem_map]
    exact ⟨c₀, hc₀, by simp [hid₀]⟩
  · intro c hc hid
    simp only [updateCandidateStatusInStore, List.mem_map] at hc
    obtain ⟨a, _, ha⟩ := hc
    by_cases h : a.id = candidateId
    · simp only [h, if_pos rfl] at ha
      subst ha; rfl
    · simp only [if_neg h] at ha
      subst ha; exact absurd hid h

/-- Witness for C1 at a concrete store. -/
theorem updateCandidateStatusInStore_sets_status_witness :
    (∃ c ∈ (updateCandidateStatusInStore 7 .Aprovado
        ⟨[], [⟨7, "Ana", none, none, some 80, none, some ⟨3, "Triagem"⟩⟩], false, none⟩).candidates,
        c.id = 7) ∧
    ∀ c ∈ (updateCandidateStatusInStore 7 .Aprovado
        ⟨[], [⟨7, "Ana", none, none, some 80, none, some ⟨3, "Triagem"⟩⟩], false, none⟩).candidates,
      c.id = 7 → c.status = some ⟨0, PipelineStatus.Aprovado.value⟩ :=
  updateCandidateStatusInStore_sets_status
    ⟨[], [⟨7, "Ana", none, none, some 80, none, some ⟨3, "Triagem"⟩⟩], false, none⟩
    7 .Aprovado ⟨⟨7, "Ana", none, none, some 80, none, some ⟨3, "Triagem"⟩⟩, by simp, rfl⟩

/-- C9. `updateCandidateStatusInStore` changes nothing but the status of the
matching candidates: jobs, error and the loading flag are untouched, the
candidates list keeps its length and order, candidates with a different id
are untouched, and the matching candidate keeps every field except
`status`. -/
theorem updateCandidateStatusInStore_frame
    (s : DataState) (candidateId : Int) (newStatus : PipelineStatus) :
    (updateCandidateStatusInStore candidateId newStatus s).jobs = s.jobs ∧
    (updateCandidateStatusInStore candidateId newStatus s).error = s.error ∧
    (updateCandidateStatusInStore candidateId newStatus s).isDataLoading = s.isDataLoading ∧
    (updateCandidateStatusInStore candidateId newStatus s).candidates.length
      = s.candidates.length ∧
    ∀ i : Nat, ∀ h : i < s.candidates.length,
      let c := s.candidates.get ⟨i, h⟩
      let c' := (updateCandidateStatusInStore candidateId newStatus s).candidates.get
        ⟨i, by simpa [updateCandidateStatusInStore] using h⟩
      (c.id ≠ candidateId → c' = c) ∧
      c'.id = c.id ∧ c'.nome = c.nome ∧ c'.email = c.email ∧
      c'.telefone = c.telefone ∧ c'.score = c.score ∧ c'.vaga = c.vaga := by
  refine ⟨rfl, rfl, rfl, by simp [updateCandidateStatusInStore], ?_⟩
  intro i h
  simp only [updateCandidateStatusInStore, List.get_eq_getElem, List.getElem_map]
  by_cases hid : (s.candidates[i]).id = candidateId
  · simp [hid]
  · simp [hid]

/-- Witness for C9 at a concrete store (two candidates, one matching). -/
theorem updateCandidateStatusInStore_frame_witness :
    (updateCandidateStatusInStore 1 .Entrevista
      ⟨[⟨9, "Dev", none⟩],
       [⟨1, "Bia", some "b@x", none, some 50, none, some ⟨3, "Triagem"⟩⟩,
        ⟨2, "Caio", none, none, none, none, none⟩], true, some "old"⟩).jobs
      = [⟨9, "Dev", none⟩] ∧
    (updateCandidateStatusInStore 1 .Entrevista
      ⟨[⟨9, "Dev", none⟩],
       [⟨1, "Bia", some "b@x", none, some 50, none, some ⟨3, "Triagem"⟩⟩,
        ⟨2, "Caio", none, none, none, none, none⟩], true, some "old"⟩).candidates.length = 2 :=
  by
    have h := updateCandidateStatusInStore_frame
      ⟨[⟨9, "Dev", none⟩],
       [⟨1, "Bia", some "b@x", none, some 50, none, some ⟨3, "Triagem"⟩⟩,
        ⟨2, "Caio", none, none, none, none, none⟩], true, some "old"⟩ 1 .Entrevista
    exact ⟨h.1, h.2.2.2.1⟩

/-- C2. Whenever `fetchAllData` takes a failing path — the fetch rejects,
the response's content type is missing or not JSON (even when the HTTP
status is 200/`ok`), the response is not `ok`, or the body fails to parse —
the store ends with `jobs = []`, `candidates = []`, and a non-null `error`,
never keeping the previous collections. -/
theorem fetchAllData_failure_clears (outcome : FetchOutcome) (s : DataState)
    (hfail : fetchFailed outcome = true) :
    (fetchAllData outcome s).jobs = [] ∧
    (fetchAllData outcome s).candidates = [] ∧
    (fetchAllData outcome s).error.isSome = true := by
  cases outcome with
  | networkError msg =>
    simp [fetchAllData, fetchAllDataCatch]
  | response ok contentType body =>
    by_cases hct : contentTypeIsJson contentType
    · by_cases hok : ok
      · cases body with
        | malformed msg =>
          simp [fetchAllData, fetchAllDataCatch, hct, hok]
        | parsed jobs candidates =>
          simp [fetchFailed, hct, hok] at hfail
      · simp [fetchAllData, fetchAllDataCatch, hct, hok]
    · simp [fetchAllData, fetchAllDataCatch, hct]

/-- Witness for C2: a 200/`ok` response whose content type is `text/html`,
against a store holding stale data. -/
theorem fetchAllData_failure_clears_witness :
    fetchFailed (.response true (some "text/html") (.parsed (some [⟨4, "Dev", none⟩]) none))
      = true ∧
    (fetchAllData (.response true (some "text/html") (.parsed (some [⟨4, "Dev", none⟩]) none))
      ⟨[⟨3, "QA", none⟩], [⟨1, "Bia", none, none, none, none, none⟩], false, none⟩).jobs = [] ∧
    (fetchAllData (.response true (some "text/html") (.parsed (some [⟨4, "Dev", none⟩]) none))
      ⟨[⟨3, "QA", none⟩], [⟨1, "Bia", none, none, none, none, none⟩], false, none⟩).candidates
      = [] ∧
    (fetchAllData (.response true (some "text/html") (.parsed (some [⟨4, "Dev", none⟩]) none))
      ⟨[⟨3, "QA", none⟩], [⟨1, "Bia", none, none, none, none, none⟩], false, none⟩).error.isSome
      = true := by
  refine ⟨by decide, ?_⟩
  have h := fetchAllData_failure_clears
    (.response true (some "text/html") (.parsed (some [⟨4, "Dev", none⟩]) none))
    ⟨[⟨3, "QA", none⟩], [⟨1, "Bia", none, none, none, none, none⟩], false, none⟩
    (by decide)
  exact ⟨h.1, h.2.1, h.2.2⟩

/-- C3. `deleteJobById` is not optimistic: on a non-`ok` response the state
is unchanged (any job present stays present) and an error is raised; only
an `ok` response removes the matching job (and exactly it, raising no
error). -/
theorem deleteJobById_requires_ok
    (jobId : Int) (errorField : Option String) (s : DataState) :
    (deleteJobById jobId (.response false errorField) s).1 = s ∧
    ((deleteJobById jobId (.response false errorField) s).2.isSome = true) ∧
    ((deleteJobById jobId (.response true errorField) s).2 = none) ∧
    (∀ job ∈ (deleteJobById jobId (.response true errorField) s).1.jobs, job.id ≠ jobId) ∧
    (∀ job ∈ s.jobs, job.id ≠ jobId →
      job ∈ (deleteJobById jobId (.response true errorField) s).1.jobs) := by
  refine ⟨rfl, rfl, rfl, ?_, ?_⟩
  · intro job hjob
    simp [deleteJobById, List.mem_filter, bne_iff_ne] at hjob
    exact hjob.2
  · intro job hjob hne
    simp [deleteJobById, List.mem_filter, bne_iff_ne]
    exact ⟨hjob, hne⟩

/-- Witness for C3: a 500 response leaves job 5 in place and raises; an
`ok` response removes it. -/
theorem deleteJobById_requires_ok_witness :
    (deleteJobById 5 (.response false (some "boom"))
      ⟨[⟨5, "Dev", none⟩, ⟨6, "QA", none⟩], [], false, none⟩).1
      = ⟨[⟨5, "Dev", none⟩, ⟨6, "QA", none⟩], [], false, none⟩ ∧
    (∀ job ∈ (deleteJobById 5 (.response true (some "boom"))
      ⟨[⟨5, "Dev", none⟩, ⟨6, "QA", none⟩], [], false, none⟩).1.jobs, job.id ≠ 5) := by
  have h := deleteJobById_requires_ok 5 (some "boom")
    ⟨[⟨5, "Dev", none⟩, ⟨6, "QA", none⟩], [], false, none⟩
  exact ⟨h.1, h.2.2.2.1⟩

/-- C4. `isGoogleConnected` is the value derived from the session profile:
it is true exactly when `google_refresh_token` is non-null and non-empty,
and changing only that field flips the flag. -/
theorem isGoogleConnected_iff_token (p : UserProfile) :
    (isGoogleConnected (some p) = true ↔
      ∃ t, p.google_refresh_token = some t ∧ t ≠ "") ∧
    (∀ t : String, t ≠ "" →
      isGoogleConnected (some { p with google_refresh_token := some t }) = true) ∧
    isGoogleConnected (some { p with google_refresh_token := none }) = false := by
  refine ⟨?_, ?_, rfl⟩
  · cases h : p.google_refresh_token with
    | none => simp [isGoogleConnected, hasGoogleToken, jsTruthy, h]
    | some t => simp [isGoogleConnected, hasGoogleToken, jsTruthy, h, bne_iff_ne]
  · intro t ht
    simp [isGoogleConnected, hasGoogleToken, jsTruthy, bne_iff_ne, ht]

/-- Witness for C4 at a concrete profile. -/
theorem isGoogleConnected_iff_token_witness :
    isGoogleConnected (some ⟨1, "a@b", some "tok"⟩) = true ∧
    isGoogleConnected (some ⟨1, "a@b", none⟩) = false := by
  have h := isGoogleConnected_iff_token ⟨1, "a@b", some "tok"⟩
  exact ⟨h.1.mpr ⟨"tok", rfl, by decide⟩, h.2.2⟩

/-- Helper: `x || fallback` is non-empty whenever the fallback is. -/
theorem orDefault_ne_empty (msg fallback : String) (h : fallback ≠ "") :
    orDefault msg fallback ≠ "" := by
  unfold orDefault
  split
  · exact h
  · assumption

/-- C5. On opening the modal: a successful calendar fetch selects a primary
calendar when one exists, else the first calendar when the list is
non-empty; an empty list, a failed response, or a thrown fetch error leaves
the modal in the calendar-error state with the submit control disabled. -/
theorem fetchCalendars_selection
    (st : ModalCalendarState) (message : Option String) (L : List GoogleCalendar) :
    ((∃ c ∈ L, c.primary = true) →
      ∃ c ∈ L, c.primary = true ∧
        (fetchCalendars (.body true true message L) st).selectedCalendarId = c.id) ∧
    (∀ first rest, L = first :: rest → (∀ c ∈ L, c.primary = false) →
      (fetchCalendars (.body true true message L) st).selectedCalendarId = first.id) ∧
    (L = [] →
      (fetchCalendars (.body true true message L) st).calendarError ≠ "" ∧
      submitDisabled false (fetchCalendars (.body true true message L) st) = true) ∧
    (∀ ok success : Bool, (ok = false ∨ success = false) →
      (fetchCalendars (.body ok success message L) st).calendarError ≠ "" ∧
      submitDisabled false (fetchCalendars (.body ok success message L) st) = true) ∧
    (∀ msg : String, msg ≠ "" →
      (fetchCalendars (.thrown msg) st).calendarError = msg ∧
      submitDisabled false (fetchCalendars (.thrown msg) st) = true) := by
  refine ⟨?_, ?_, ?_, ?_, ?_⟩
  · rintro ⟨c, hc, hp⟩
    cases hfind : L.find? (fun cal => cal.primary) with
    | none =>
      exfalso
      rw [List.find?_eq_none] at hfind
      exact absurd hp (by simpa using hfind c hc)
    | some c' =>
      refine ⟨c', List.mem_of_find?_eq_some hfind, by simpa using List.find?_some hfind, ?_⟩
      simp [fetchCalendars, hfind]
  · intro first rest hL hnone
    have hfind : L.find? (fun cal => cal.primary) = none := by
      rw [List.find?_eq_none]
      intro x hx
      simp [hnone x hx]
    subst hL
    simp [fetchCalendars, hfind]
  · intro hL
    subst hL
    refine ⟨by simp [fetchCalendars], by simp [fetchCalendars, submitDisabled]⟩
  · intro ok success h
    have hcond : (!ok || !success) = true := by
      rcases h with h | h <;> simp [h]
    constructor
    · simp only [fetchCalendars, hcond]
      simpa using orDefault_ne_empty (message.getD "") _ (by decide)
    · simp only [submitDisabled, fetchCalendars, hcond]
      simpa [bne_iff_ne] using orDefault_ne_empty (message.getD "") _ (by decide)
  · intro msg hmsg
    exact ⟨rfl, by simp [submitDisabled, fetchCalendars, bne_iff_ne, hmsg]⟩

/-- Witness for C5: a list whose second calendar is primary gets a primary
calendar selected; the empty list yields the error state with submission
disabled. -/
theorem fetchCalendars_selection_witness :
    (∃ c ∈ [(⟨"a", "Sec", false⟩ : GoogleCalendar), ⟨"b", "Main", true⟩], c.primary = true ∧
      (fetchCalendars (.body true true none [⟨"a", "Sec", false⟩, ⟨"b", "Main", true⟩])
        ⟨[], "", false, ""⟩).selectedCalendarId = c.id) ∧
    ((fetchCalendars (.body true true none ([] : List GoogleCalendar))
        ⟨[], "", false, ""⟩).calendarError ≠ "" ∧
      submitDisabled false
        (fetchCalendars (.body true true none ([] : List GoogleCalendar))
          ⟨[], "", false, ""⟩) = true) := by
  have h₁ := fetchCalendars_selection ⟨[], "", false, ""⟩ none
    [(⟨"a", "Sec", false⟩ : GoogleCalendar), ⟨"b", "Main", true⟩]
  have h₂ := fetchCalendars_selection ⟨[], "", false, ""⟩ none ([] : List GoogleCalendar)
  exact ⟨h₁.1 ⟨⟨"b", "Main", true⟩, by simp, rfl⟩, h₂.2.2.1 rfl⟩

/-- C6 counterexample: at a concrete failed submission the backend message
is surfaced via alert, but the modal does NOT remain open — the `finally`
block closes it regardless of the outcome. -/
theorem handleScheduleSubmit_closes_on_failure_counterexample :
    (handleScheduleSubmit (some ⟨1, "Bia", none, none, none, none, none⟩)
        (some ⟨2, "Dev", none⟩) (some ⟨3, "a@b", none⟩)
        (.body false false (some "boom")) ⟨false, true, none⟩).alerts
      = ["Erro: boom"] ∧
    ¬ ((handleScheduleSubmit (some ⟨1, "Bia", none, none, none, none, none⟩)
        (some ⟨2, "Dev", none⟩) (some ⟨3, "a@b", none⟩)
        (.body false false (some "boom")) ⟨false, true, none⟩).state.isScheduleModalOpen
      = true) := by
  constructor
  · rfl
  · decide

/-- C6 (amended). A failed submission surfaces `Erro: <message>` via an
alert and skips the data resynchronization, but the coordinator closes the
form unconditionally (`finally`): the modal ends closed, not back in a
Ready state. -/
theorem handleScheduleSubmit_failure_surfaces_and_closes
    (cand : Candidate) (job : JobPosting) (prof : UserProfile)
    (st : ResultsPageState) (outcome : SubmitOutcome)
    (hfail : submitFailed outcome = true) :
    (∃ msg, (handleScheduleSubmit (some cand) (some job) (some prof) outcome st).alerts
        = ["Erro: " ++ msg]) ∧
    (handleScheduleSubmit (some cand) (some job) (some prof) outcome st).dataSynced = false ∧
    (handleScheduleSubmit (some cand) (some job) (some prof) outcome st).state.isScheduleModalOpen
      = false ∧
    (handleScheduleSubmit (some cand) (some job) (some prof) outcome st).state.candidateToSchedule
      = none := by
  cases outcome with
  | thrown msg => exact ⟨⟨msg, rfl⟩, rfl, rfl, rfl⟩
  | body ok success message =>
    have hcond : (!ok || !success) = true := hfail
    refine ⟨⟨orDefault (message.getD "") "Não foi possível agendar a entrevista.", ?_⟩,
      ?_, rfl, rfl⟩
    · simp [handleScheduleSubmit, hcond]
    · simp [handleScheduleSubmit, hcond]

/-- Witness for the amended C6 at a concrete failed submission. -/
theorem handleScheduleSubmit_failure_surfaces_and_closes_witness :
    (∃ msg, (handleScheduleSubmit (some ⟨1, "Bia", none, none, none, none, none⟩)
        (some ⟨2, "Dev", none⟩) (some ⟨3, "a@b", none⟩)
        (.thrown "net down") ⟨false, true, none⟩).alerts = ["Erro: " ++ msg]) ∧
    (handleScheduleSubmit (some ⟨1, "Bia", none, none, none, none, none⟩)
        (some ⟨2, "Dev", none⟩) (some ⟨3, "a@b", none⟩)
        (.thrown "net down") ⟨false, true, none⟩).state.isScheduleModalOpen = false := by
  have h := handleScheduleSubmit_failure_surfaces_and_closes
    ⟨1, "Bia", none, none, none, none, none⟩ ⟨2, "Dev", none⟩ ⟨3, "a@b", none⟩
    ⟨false, true, none⟩ (.thrown "net down") (by decide)
  exact ⟨h.1, h.2.2.1⟩

/-- C7. `handleSubmit` hands details to `onSchedule` (the network path) iff
the start, end and selected-calendar fields are all non-empty; otherwise it
returns without any call, and when it does call, the details carry exactly
the form's fields. -/
theorem handleSubmit_validation (form : ScheduleFormState) (title : String) :
    ((handleSubmit form title).isSome = true ↔
      (form.startDateTime ≠ "" ∧ form.endDateTime ≠ "" ∧ form.selectedCalendarId ≠ "")) ∧
    (∀ d, handleSubmit form title = some d →
      d.start = form.startDateTime ∧ d.end_ = form.endDateTime ∧ d.title = title ∧
      d.details = form.details ∧ d.calendarId = form.selectedCalendarId) := by
  constructor
  · unfold handleSubmit
    split
    · rename_i h
      simp only [Bool.or_eq_true, beq_iff_eq] at h
      simp only [Option.isSome_none, Bool.false_eq_true, false_iff]
      tauto
    · rename_i h
      simp only [Bool.or_eq_true, beq_iff_eq] at h
      push_neg at h
      simp only [Option.isSome_some, true_iff]
      tauto
  · intro d hd
    unfold handleSubmit at hd
    split at hd
    · exact absurd hd (by simp)
    · cases hd
      exact ⟨rfl, rfl, rfl, rfl, rfl⟩

/-- Witness for C7: a complete form passes, an empty start field is
rejected with no call. -/
theorem handleSubmit_validation_witness :
    (handleSubmit ⟨"2025-01-01T10:00", "2025-01-01T11:00", "notes", "cal1"⟩ "T").isSome
      = true ∧
    handleSubmit ⟨"", "2025-01-01T11:00", "notes", "cal1"⟩ "T" = none := by
  have h := handleSubmit_validation ⟨"2025-01-01T10:00", "2025-01-01T11:00", "notes", "cal1"⟩ "T"
  exact ⟨h.1.mpr ⟨by decide, by decide, by decide⟩, rfl⟩

/-- C8. Every calendar in a successful list-calendars response has access
role `owner` or `writer`, and stems from an API item whose `id`, `summary`
and defaulted `primary` it carries. -/
theorem listCalendarsRoute_filters (userId : Option String)
    (api : Except String (Option (List RawCalendarEntry)))
    (cals : List SimplifiedCalendar)
    (h : listCalendarsRoute userId api = .okJson cals) :
    ∀ cal ∈ cals,
      (cal.accessRole = some "owner" ∨ cal.accessRole = some "writer") ∧
      ∃ items, api = .ok (some items) ∧ ∃ raw ∈ items,
        cal.id = raw.id ∧ cal.summary = raw.summary ∧
        cal.primary = raw.primary.getD false := by
  intro cal hcal
  unfold listCalendarsRoute at h
  by_cases hu : jsTruthy userId
  · rw [hu] at h
    simp only [Bool.not_true, Bool.false_eq_true, if_false] at h
    cases api with
    | error msg => cases h
    | ok items? =>
      cases items? with
      | none =>
        cases h
        cases hcal
      | some items =>
        cases h
        simp only [simplifyCalendars, List.mem_filter, List.mem_map] at hcal
        obtain ⟨⟨raw, hraw, hproj⟩, hrole⟩ := hcal
        subst hproj
        simp only [Bool.or_eq_true, beq_iff_eq] at hrole
        exact ⟨hrole, items, rfl, raw, hraw, rfl, rfl, rfl⟩
  · rw [Bool.not_eq_true] at hu
    rw [hu] at h
    cases h

/-- Witness for C8: a two-item API answer (one `owner`, one `reader`)
yields a response whose first calendar satisfies the property. -/
theorem listCalendarsRoute_filters_witness :
    ((⟨some "a", some "Main", true, some "owner"⟩ : SimplifiedCalendar).accessRole
        = some "owner" ∨
      (⟨some "a", some "Main", true, some "owner"⟩ : SimplifiedCalendar).accessRole
        = some "writer") ∧
    ∃ items, (Except.ok (some
        [(⟨some "a", some "Main", some true, some "owner"⟩ : RawCalendarEntry),
         ⟨some "b", some "Other", none, some "reader"⟩]) :
        Except String (Option (List RawCalendarEntry))) = .ok (some items) ∧
      ∃ raw ∈ items,
        (⟨some "a", some "Main", true, some "owner"⟩ : SimplifiedCalendar).id = raw.id ∧
        (⟨some "a", some "Main", true, some "owner"⟩ : SimplifiedCalendar).summary
          = raw.summary ∧
        (⟨some "a", some "Main", true, some "owner"⟩ : SimplifiedCalendar).primary
          = raw.primary.getD false :=
  listCalendarsRoute_filters (some "1")
    (.ok (some [⟨some "a", some "Main", some true, some "owner"⟩,
                ⟨some "b", some "Other", none, some "reader"⟩]))
    (simplifyCalendars [⟨some "a", some "Main", some true, some "owner"⟩,
                        ⟨some "b", some "Other", none, some "reader"⟩])
    (by decide) ⟨some "a", some "Main", true, some "owner"⟩ (by decide)

/-- C10. `triggerN8NWebhook` is total (always returns `{success, message}`,
never throws); with the webhook URL unset or empty, with no associated
recruiter on the job, or with a failed recruiter lookup it returns
`success = false` with the corresponding explanatory message and posts
nothing. -/
theorem triggerN8NWebhook_guards (envUrl : Option String)
    (lookup : Int → Option BaserowUser) (fetchOutcome : WebhookFetchOutcome)
    (candidate : BaserowCandidate) (job : JobPosting) :
    (jsTruthy envUrl = false →
      triggerN8NWebhook envUrl lookup fetchOutcome candidate job
        = ({ success := false, message := "URL do webhook não configurada." }, none)) ∧
    (jsTruthy envUrl = true → (job.usuario = none ∨ job.usuario = some []) →
      triggerN8NWebhook envUrl lookup fetchOutcome candidate job
        = ({ success := false, message := "Vaga sem recrutador associado." }, none)) ∧
    (∀ first rest, jsTruthy envUrl = true → job.usuario = some (first :: rest) →
      lookup first.id = none →
      triggerN8NWebhook envUrl lookup fetchOutcome candidate job
        = ({ success := false,
             message := "Recrutador com ID " ++ toString first.id ++ " não encontrado." },
           none)) := by
  refine ⟨?_, ?_, ?_⟩
  · intro h
    simp [triggerN8NWebhook, h]
  · intro h hu
    rcases hu with hu | hu <;> simp [triggerN8NWebhook, h, hu]
  · intro first rest h hus hlook
    simp [triggerN8NWebhook, getRecruiterData, h, hus, hlook]

/-- Witness for C10: unset webhook URL at concrete inputs. -/
theorem triggerN8NWebhook_guards_witness :
    triggerN8NWebhook none (fun _ => none) (.response true 200 "")
        ⟨1, "Bia"⟩ ⟨2, "Dev", some [⟨9⟩]⟩
      = ({ success := false, message := "URL do webhook não configurada." }, none) :=
  (triggerN8NWebhook_guards none (fun _ => none) (.response true 200 "")
    ⟨1, "Bia"⟩ ⟨2, "Dev", some [⟨9⟩]⟩).1 (by decide)

end RecrutApp
